import Mathlib

/-!
Shallow embedding of the AI-lie-detector v2 analysis pipeline, together with
proofs settling the specification claims about it.

Each definition mirrors one Python function of the repository; the file and
function it comes from is named in its doc comment.  Real ("float") arithmetic
of the source is modelled over `ℚ`; the floating-point square root inside
`scipy.stats.sem` is abstracted as an explicit function parameter.
-/

set_option maxHeartbeats 1000000

namespace Spec2Proof

/-! ## Credibility scoring
`backend/services/v2_services/credibility_scoring_service.py` -/

/-- Modelled from the spec: the per-metric `MetricBaseline` record
(`{mean, std, mad?, …}`, spec §3).  The service imports `MetricBaseline` from
`backend.models`, but `src/backend/models.py` does not define it. -/
structure MetricBaseline where
  mean : ℚ
  std : ℚ
  mad : Option ℚ
deriving Repr, DecidableEq

/-- Modelled from the spec: a `BaselineProfile` carrying per-metric
`MetricBaseline` fields and a `calibration_quality` label (spec §3).  The
attribute lookup `hasattr(baseline, name)/getattr(baseline, name)` of the
service is modelled as the function `metricBaseline`. -/
structure BaselineProfile where
  metricBaseline : String → Option MetricBaseline
  calibration_quality : String

/-- `CredibilityScoringService._calculate_z_score`: z-score with MAD-based
outlier robustness.  Returns `none` when there is no baseline or `std == 0`. -/
def calculateZScore (value : ℚ) (baseline : Option MetricBaseline) : Option ℚ :=
  match baseline with
  | none => none
  | some b =>
    if b.std = 0 then none
    else
      let z := (value - b.mean) / b.std
      match b.mad with
      | some mad =>
        if 0 < mad then
          let madZ := (6745 / 10000 : ℚ) * (value - b.mean) / mad
          if |madZ| < |z| then some madZ else some z
        else some z
      | none => some z

/-- `CredibilityScoringService.METRIC_WEIGHTS` (class attribute). -/
def METRIC_WEIGHTS : List (String × ℚ) :=
  [("pitch_jitter", 85/100), ("pitch_shimmer", 85/100), ("vocal_tremor", 80/100),
   ("pause_rate", 75/100), ("formant_dispersion", 70/100), ("hnr_mean", 65/100),
   ("pitch_std", 60/100), ("intensity_std", 55/100), ("speech_rate", 60/100),
   ("hesitation_rate", 70/100), ("pronoun_ratio", 55/100), ("qualifier_ratio", 60/100),
   ("response_latency", 65/100), ("prosodic_congruence", 80/100)]

/-- `self.METRIC_WEIGHTS.get(metric_name, 0.5)`. -/
def metricWeight (name : String) : ℚ := (METRIC_WEIGHTS.lookup name).getD (1/2)

/-- `CredibilityScoringService.METRIC_DIRECTIONS` (class attribute);
note `pitch_std` is marked context-dependent with direction `0`. -/
def METRIC_DIRECTIONS : List (String × ℤ) :=
  [("pitch_jitter", 1), ("pitch_shimmer", 1), ("vocal_tremor", 1),
   ("pause_rate", 1), ("formant_dispersion", 1), ("hnr_mean", -1),
   ("pitch_std", 0), ("intensity_std", 1), ("speech_rate", -1),
   ("hesitation_rate", 1), ("pronoun_ratio", -1), ("qualifier_ratio", 1),
   ("response_latency", 1), ("prosodic_congruence", 1)]

/-- `self.METRIC_DIRECTIONS.get(metric_name, 1)`. -/
def metricDirection (name : String) : ℤ := (METRIC_DIRECTIONS.lookup name).getD 1

/-- Python `f"{x:.2f}"`: render a rational to two decimals.  (CPython formats
the binary float with round-half-even at exact ties; this model rounds half
up, which agrees everywhere our concrete inputs go.) -/
def fmt2 (q : ℚ) : String :=
  let n : ℤ := round (q * 100)
  let a : ℕ := n.natAbs
  (if n < 0 then "-" else "") ++ toString (a / 100) ++ "." ++
    (if a % 100 < 10 then "0" else "") ++ toString (a % 100)

/-- The f-string of `_calculate_credibility_score`:
`f"{metric_name}: {'+' if z_score > 0 else ''}{z_score:.2f}σ (suspicious)"`. -/
def formatIndicator (name : String) (z : ℚ) : String :=
  name ++ ": " ++ (if 0 < z then "+" else "") ++ fmt2 z ++ "σ (suspicious)"

/-- Modelled from the spec: the `MetricContribution` record
(`{name, z_score, direction, weight, contribution}`, spec §3); the service
imports it from `backend.models`, where it is absent. -/
structure MetricContribution where
  metric_name : String
  z_score : ℚ
  direction : ℤ
  weight : ℚ
  contribution : ℚ
deriving Repr, DecidableEq

/-- Accumulator of the `for metric_name, value in metrics.items()` loop of
`_calculate_credibility_score`. -/
structure ScoreLoopState where
  contributions : List MetricContribution
  primary_indicators : List String
  weighted_sum : ℚ
  total_weight : ℚ
  z_scores : List ℚ
deriving Repr

/-- The metric loop of `_calculate_credibility_score` (lines 170-206): for each
metric with a usable baseline z-score, record its contribution
`direction * z * weight`, accumulate `weighted_sum`/`total_weight`/`z_scores`,
and flag `|z| > 1.5`, `direction*z > 0` deviations as primary indicators,
all in input order. -/
def scoreLoop (baseline : Option BaselineProfile) : List (String × ℚ) → ScoreLoopState
  | [] => ⟨[], [], 0, 0, []⟩
  | (name, value) :: rest =>
    let st := scoreLoop baseline rest
    match calculateZScore value (baseline.bind fun b => b.metricBaseline name) with
    | none => st
    | some z =>
      let weight := metricWeight name
      let direction := metricDirection name
      let contribution := (direction : ℚ) * z * weight
      { contributions := ⟨name, z, direction, weight, contribution⟩ :: st.contributions
        primary_indicators :=
          if 3/2 < |z| ∧ 0 < (direction : ℚ) * z then
            formatIndicator name z :: st.primary_indicators
          else st.primary_indicators
        weighted_sum := contribution + st.weighted_sum
        total_weight := weight + st.total_weight
        z_scores := z :: st.z_scores }

/-- `scipy.stats.sem(z_scores)` (ddof = 1), as used on line 221: sample
standard deviation over √n, i.e. `sqrt(variance / n)`.  The floating-point
square root is supplied as the abstract parameter `sqrtFn`. -/
def semOf (sqrtFn : ℚ → ℚ) (zs : List ℚ) : ℚ :=
  let n : ℚ := zs.length
  let mean := zs.sum / n
  let variance := (zs.map fun z => (z - mean) ^ 2).sum / (n - 1)
  sqrtFn (variance / n)

/-- Python `round(x, 1)` on the emitted score fields (CPython uses
round-half-even on the binary float at exact ties; this model rounds half up,
which is likewise monotone and fixes whole numbers). -/
def round1 (q : ℚ) : ℚ := (round (q * 10) : ℚ) / 10

/-- Modelled from the spec: the `CredibilityScore` record the service
constructs (spec §3).  `src/backend/models.py` holds an older record without
the fields used here (`confidence_interval_low/high`, `credibility_category`,
`primary_indicators`, `metric_breakdown`, …). -/
structure CredibilityScore where
  credibility_score : ℚ
  confidence_interval_low : ℚ
  confidence_interval_high : ℚ
  credibility_category : String
  confidence_level : String
  primary_indicators : List String
  metric_breakdown : List MetricContribution
  baseline_quality : String
  quality_warnings : List String
  inconclusive_reason : Option String
  physiological_load_score : Option ℚ
  cognitive_load_indicator : Option ℚ
deriving Repr

/-- Contiguous-sublist test on character lists. -/
def charsContain (needle : List Char) : List Char → Bool
  | [] => needle.isEmpty
  | c :: rest => needle.isPrefixOf (c :: rest) || charsContain needle rest

/-- Python's `needle in haystack` on strings (substring test). -/
def strContains (hay needle : String) : Bool :=
  charsContain needle.toList hay.toList

/-- Lines 210-217 of `_calculate_credibility_score`: the clamped score
`max(0, min(100, 50 - normalized_sum * 25))` when `total_weight > 0`,
otherwise the neutral `50`. -/
def credScoreValue (st : ScoreLoopState) : ℚ :=
  if 0 < st.total_weight then
    max 0 (min 100 (50 - st.weighted_sum / st.total_weight * 25))
  else 50

/-- The `"Insufficient metrics"` quality warning recorded exactly in the
`total_weight = 0` branch (line 217). -/
def credScoreWarnings (st : ScoreLoopState) : List String :=
  if 0 < st.total_weight then [] else ["Insufficient metrics for credibility assessment"]

/-- Lines 220-228: the confidence-interval margin, `sem * 1.96 * 25` with at
least three z-scores and the wide `30` otherwise. -/
def ciMarginValue (sqrtFn : ℚ → ℚ) (st : ScoreLoopState) : ℚ :=
  if 3 ≤ st.z_scores.length then semOf sqrtFn st.z_scores * (196/100) * 25 else 30

/-- The wide-confidence-interval warning recorded in the `< 3` z-scores
branch (line 229). -/
def ciWarnings (st : ScoreLoopState) : List String :=
  if 3 ≤ st.z_scores.length then [] else ["Wide confidence interval due to limited metrics"]

/-- `ci_low = max(0, credibility_score - ci_margin)` (lines 223/227). -/
def ciLowValue (sqrtFn : ℚ → ℚ) (st : ScoreLoopState) : ℚ :=
  max 0 (credScoreValue st - ciMarginValue sqrtFn st)

/-- `ci_high = min(100, credibility_score + ci_margin)` (lines 224/228). -/
def ciHighValue (sqrtFn : ℚ → ℚ) (st : ScoreLoopState) : ℚ :=
  min 100 (credScoreValue st + ciMarginValue sqrtFn st)

/-- `CredibilityScoringService._calculate_credibility_score` (lines 153-290).
`sqrtFn` models the floating-point square root inside `scipy.stats.sem`;
`metrics` is the `metrics.items()` sequence of the input dict. -/
def calculateCredibilityScore (sqrtFn : ℚ → ℚ) (metrics : List (String × ℚ))
    (baseline : Option BaselineProfile) : CredibilityScore :=
  let st := scoreLoop baseline metrics
  let credibility_score := credScoreValue st
  let ciLow := ciLowValue sqrtFn st
  let ciHigh := ciHighValue sqrtFn st
  let quality_warnings := credScoreWarnings st ++ ciWarnings st
  let catReason : String × Option String :=
    if 50 < ciHigh - ciLow then
      ("inconclusive", some "Confidence interval too wide - insufficient data")
    else if 70 ≤ credibility_score then ("high_credibility", none)
    else if 40 ≤ credibility_score then ("moderate", none)
    else if 20 ≤ credibility_score then ("low_credibility", none)
    else ("very_low_credibility", none)
  let ciWidth := ciHigh - ciLow
  let confidence := if ciWidth < 20 then "high" else if ciWidth < 40 then "medium" else "low"
  let baselineQuality := match baseline with
    | some b => b.calibration_quality
    | none => "none"
  let acousticZ := (st.contributions.filter fun c =>
      decide (c.z_score ≠ 0) && (strContains c.metric_name "pitch" ||
        strContains c.metric_name "hnr" || strContains c.metric_name "formant")).map
      (·.z_score)
  let physiologicalLoad : Option ℚ :=
    if acousticZ = [] then none
    else some (min 100 (max 0 (50 + acousticZ.sum / acousticZ.length * 20)))
  let cognitiveZ := (st.contributions.filter fun c =>
      decide (c.z_score ≠ 0) && (strContains c.metric_name "hesitation" ||
        strContains c.metric_name "pause" || strContains c.metric_name "speech_rate")).map
      (·.z_score)
  let cognitiveLoad : Option ℚ :=
    if cognitiveZ = [] then none
    else some (min 100 (max 0 (50 + cognitiveZ.sum / cognitiveZ.length * 20)))
  { credibility_score := round1 credibility_score
    confidence_interval_low := round1 ciLow
    confidence_interval_high := round1 ciHigh
    credibility_category := catReason.1
    confidence_level := confidence
    primary_indicators := st.primary_indicators.take 5
    metric_breakdown :=
      st.contributions.insertionSort fun a b => |b.contribution| ≤ |a.contribution|
    baseline_quality := baselineQuality
    quality_warnings := quality_warnings
    inconclusive_reason := catReason.2
    physiological_load_score :=
      physiologicalLoad.bind fun p => if p = 0 then none else some (round1 p)
    cognitive_load_indicator :=
      cognitiveLoad.bind fun p => if p = 0 then none else some (round1 p) }

/-! ## Word tokenisation and text helpers
shared by `quantitative_metrics_service.py` and
`linguistic_enhancement_service.py` -/

/-- Python `str.lower()` (ASCII range; structural reimplementation of
`String.toLower`, whose worker does not reduce in the kernel). -/
def strLower (s : String) : String := ⟨s.data.map Char.toLower⟩

/-- Python word characters (`\w` of the `re` module, ASCII range; the
repository's inputs are ASCII). -/
def isWordChar (c : Char) : Bool := c.isAlphanum || c = '_'

/-- Accumulating worker for `wordTokens`: collects maximal runs of word
characters (current run carried reversed). -/
def wordTokensAux : List Char → List Char → List String
  | [], cur => if cur.isEmpty then [] else [String.mk cur.reverse]
  | c :: rest, cur =>
    if isWordChar c then wordTokensAux rest (c :: cur)
    else if cur.isEmpty then wordTokensAux rest []
    else String.mk cur.reverse :: wordTokensAux rest []

/-- `re.findall(r'\b\w+\b', text.lower())`: the maximal word-character runs of
the lowercased text. -/
def wordTokens (text : String) : List String :=
  wordTokensAux (strLower text).toList []

/-- Splitter for `re.split(r'[.!?]+', text)`-style sentence counting: split on
single terminator characters (empty segments between consecutive terminators
are produced here and discarded by the blank filter, so the count of
non-blank segments agrees with the `[.!?]+`-run splitting of the source). -/
def splitSegsAux (p : Char → Bool) : List Char → List Char → List (List Char)
  | [], cur => [cur.reverse]
  | c :: rest, cur =>
    if p c then cur.reverse :: splitSegsAux p rest []
    else splitSegsAux p rest (c :: cur)

/-- `sentences = re.split(r'[.!?]+', text); sentences = [s for s in sentences
if s.strip()]; len(sentences)`. -/
def sentenceCount (text : String) : ℕ :=
  (splitSegsAux (fun c => c = '.' || c = '!' || c = '?') text.toList []).countP
    (fun seg => seg.any fun c => !c.isWhitespace)

/-- Worker for `countSubstr`: non-overlapping left-to-right occurrence count
of the non-empty needle `n :: ns`.  Recursion is structural on a fuel counter
(initialised to the haystack length, which bounds the number of steps, since
every step strictly shrinks the haystack). -/
def countSubstrAux (n : Char) (ns : List Char) : ℕ → List Char → ℕ
  | 0, _ => 0
  | _, [] => 0
  | fuel + 1, c :: rest =>
    if (n :: ns).isPrefixOf (c :: rest) then
      1 + countSubstrAux n ns fuel (rest.drop ns.length)
    else countSubstrAux n ns fuel rest

/-- Python `haystack.count(needle)` for a non-empty needle (non-overlapping
occurrences; the source only counts fixed non-empty phrases). -/
def countSubstr (hay needle : String) : ℕ :=
  match needle.toList with
  | [] => 0
  | n :: ns => countSubstrAux n ns hay.toList.length hay.toList

/-! ## Quantitative linguistic metrics
`backend/services/v2_services/quantitative_metrics_service.py` -/

/-- `hesitation_markers` list of `_calculate_numerical_linguistic_metrics`. -/
def HESITATION_MARKERS : List String := ["um", "uh", "er", "ah"]

/-- `filler_words` list of `_calculate_numerical_linguistic_metrics`. -/
def FILLER_WORDS : List String :=
  ["like", "you know", "basically", "actually", "literally", "so", "well"]

/-- `qualifiers` list of `_calculate_numerical_linguistic_metrics`. -/
def QUALIFIERS : List String :=
  ["maybe", "perhaps", "might", "could", "possibly", "sort of", "kind of",
   "i guess", "i think"]

/-- `certainty_indicators` list of `_calculate_numerical_linguistic_metrics`. -/
def CERTAINTY_INDICATORS : List String :=
  ["definitely", "absolutely", "certainly", "surely", "clearly", "undoubtedly",
   "always", "never"]

/-- Consecutive identical-word repetitions (the `for i in range(len(words)-1)`
loop). -/
def countAdjacentRepeats : List String → ℕ
  | [] => 0
  | [_] => 0
  | a :: b :: rest => (if a = b then 1 else 0) + countAdjacentRepeats (b :: rest)

/-- Python `round(x, d)` at `d` decimals (round-half-up model of the float
banker's rounding; agrees off exact ties). -/
def roundTo (d : ℕ) (q : ℚ) : ℚ := (round (q * 10 ^ d) : ℚ) / 10 ^ d

/-- Values computed by
`QuantitativeMetricsService._calculate_numerical_linguistic_metrics` (the
arguments of the `NumericalLinguisticMetrics(...)` constructor call on lines
114-131; note the source then discards the constructed instance and returns
the model class itself). -/
structure NumericalLinguisticMetricsValues where
  word_count : ℕ
  unique_word_count : ℕ
  hesitation_marker_count : ℕ
  filler_word_count : ℕ
  qualifier_count : ℕ
  certainty_indicator_count : ℕ
  repetition_count : ℕ
  sentence_count : ℕ
  avg_word_length_chars : ℚ
  avg_sentence_length_words : ℚ
  speech_rate_wpm : Option ℚ
  hesitation_rate_hpm : Option ℚ
  vocabulary_richness_ttr : ℚ
  confidence_metric_ratio : Option ℚ
  formality_score_calculated : ℚ
  complexity_score_calculated : ℚ
deriving Repr, DecidableEq

/-- `QuantitativeMetricsService._calculate_numerical_linguistic_metrics`
(lines 62-134): purely local linguistic counters over the word tokens. -/
def calcNumericalLinguisticMetrics (text : String) (audioDurationSeconds : Option ℚ) :
    NumericalLinguisticMetricsValues :=
  let words := wordTokens text
  let wordCount := words.length
  let uniqueWordCount := words.dedup.length
  let sentCount := sentenceCount text
  let hesitationCount := (HESITATION_MARKERS.map fun m => words.count m).sum
  let fillerCount := (words.countP fun w => FILLER_WORDS.contains w) +
    countSubstr (strLower text) "you know"
  let qualifierCount := (QUALIFIERS.map fun q => words.count q).sum +
    ((["sort of", "kind of", "i guess", "i think"] : List String).map fun p =>
      countSubstr (strLower text) p).sum
  let certaintyCount := (CERTAINTY_INDICATORS.map fun ci => words.count ci).sum
  let repetitionCount := countAdjacentRepeats words
  let avgWordLen : ℚ :=
    if 0 < wordCount then ((words.map fun w => w.length).sum : ℚ) / wordCount else 0
  let avgSentLen : ℚ := if 0 < sentCount then (wordCount : ℚ) / sentCount else 0
  let ttr : ℚ := if 0 < wordCount then (uniqueWordCount : ℚ) / wordCount else 0
  let rates : Option ℚ × Option ℚ :=
    match audioDurationSeconds with
    | some d =>
      if 0 < d then
        let minutes := d / 60
        (some ((wordCount : ℚ) / minutes), some ((hesitationCount : ℚ) / minutes))
      else (none, none)
    | none => (none, none)
  let confidenceRatioValue : Option ℚ :=
    if 0 < certaintyCount + qualifierCount then
      some ((certaintyCount : ℚ) / (certaintyCount + qualifierCount))
    else none
  { word_count := wordCount
    unique_word_count := uniqueWordCount
    hesitation_marker_count := hesitationCount
    filler_word_count := fillerCount
    qualifier_count := qualifierCount
    certainty_indicator_count := certaintyCount
    repetition_count := repetitionCount
    sentence_count := sentCount
    avg_word_length_chars := roundTo 2 avgWordLen
    avg_sentence_length_words := roundTo 2 avgSentLen
    speech_rate_wpm := rates.1.map (roundTo 1)
    hesitation_rate_hpm := rates.2.map (roundTo 1)
    vocabulary_richness_ttr := roundTo 3 ttr
    confidence_metric_ratio := confidenceRatioValue.map (roundTo 2)
    formality_score_calculated := 50
    complexity_score_calculated := 50 }

/-! ## Prosodic congruence
`backend/services/linguistic_enhancement_service.py` -/

/-- `positive_words` of `calculate_prosodic_congruence`. -/
def CONGRUENCE_POSITIVE_WORDS : List String :=
  ["good", "great", "excellent", "wonderful", "happy", "joy", "pleased",
   "satisfied", "love", "like", "enjoy"]

/-- `negative_words` of `calculate_prosodic_congruence`. -/
def CONGRUENCE_NEGATIVE_WORDS : List String :=
  ["bad", "terrible", "awful", "sad", "angry", "hate", "dislike", "upset",
   "frustrated", "disappointed", "worried", "concerned"]

/-- `positive_emotions` of `LinguisticEnhancementService._get_emotion_valence`. -/
def POSITIVE_EMOTIONS : List String :=
  ["joy", "happiness", "excited", "pleased", "satisfied"]

/-- `negative_emotions` of `LinguisticEnhancementService._get_emotion_valence`. -/
def NEGATIVE_EMOTIONS : List String :=
  ["anger", "sad", "fear", "disgust", "frustrated", "worried"]

/-- `LinguisticEnhancementService._get_emotion_valence`. -/
def getEmotionValence (emotions : List String) : String :=
  let el := emotions.map strLower
  let pos := el.countP fun e => POSITIVE_EMOTIONS.contains e
  let neg := el.countP fun e => NEGATIVE_EMOTIONS.contains e
  if neg < pos then "positive" else if pos < neg then "negative" else "neutral"

/-- `LinguisticEnhancementService._sentiment_to_valence` (substring matching on
the lowercased label). -/
def sentimentToValence (sentiment : String) : String :=
  let sl := strLower sentiment
  if strContains sl "positive" then "positive"
  else if strContains sl "negative" then "negative"
  else "neutral"

/-- Result dict of `calculate_prosodic_congruence`. -/
structure CongruenceResult where
  congruence_score : ℚ
  mismatches : List String
  text_sentiment : String
deriving Repr, DecidableEq

/-- `LinguisticEnhancementService.calculate_prosodic_congruence` (lines
226-298).  Python truthiness of the optional arguments is modelled exactly: an
empty emotion list or empty sentiment string counts as absent. -/
def calculateProsodicCongruence (text : String) (acousticEmotions : Option (List String))
    (linguisticSentiment : Option String) : CongruenceResult :=
  let tokens := wordTokens text
  let positiveCount := tokens.countP fun t => CONGRUENCE_POSITIVE_WORDS.contains t
  let negativeCount := tokens.countP fun t => CONGRUENCE_NEGATIVE_WORDS.contains t
  let textSentiment :=
    if negativeCount < positiveCount then "positive"
    else if positiveCount < negativeCount then "negative"
    else "neutral"
  let aeTruthy := match acousticEmotions with
    | some (_ :: _) => true
    | _ => false
  let lsTruthy := match linguisticSentiment with
    | some s => !s.isEmpty
    | none => false
  let first : Option ℚ × List String :=
    if aeTruthy && lsTruthy then
      let av := getEmotionValence (acousticEmotions.getD [])
      let lv := sentimentToValence (linguisticSentiment.getD "")
      if av ≠ lv ∧ av ≠ "neutral" ∧ lv ≠ "neutral" then
        (some (3/10), ["Acoustic (" ++ av ++ ") vs Linguistic (" ++ lv ++ ")"])
      else (some (8/10), [])
    else (none, [])
  let second : Option ℚ × List String :=
    if aeTruthy then
      let av := getEmotionValence (acousticEmotions.getD [])
      if av ≠ textSentiment ∧ av ≠ "neutral" ∧ textSentiment ≠ "neutral" then
        (some (match first.1 with
          | none => (4/10 : ℚ)
          | some s => (s + 4/10) / 2),
         first.2 ++ ["Acoustic emotion (" ++ av ++ ") vs Text sentiment (" ++
           textSentiment ++ ")"])
      else first
    else first
  { congruence_score := (second.1).getD (7/10)
    mismatches := second.2
    text_sentiment := textSentiment }

/-! ## Audio quality SNR
`backend/services/v2_services/audio_analysis_service.py` -/

/-- Two's-complement wraparound of signed `w`-bit integer arithmetic, as numpy
integer dtypes overflow silently. -/
def wrapSigned (w : ℕ) (x : ℤ) : ℤ := (x + 2 ^ (w - 1)) % 2 ^ w - 2 ^ (w - 1)

/-- SNR part of `AudioAnalysisService._assess_audio_quality` (lines 47-50 and
76): `signal_power = np.mean(samples**2)` — the squaring happens in the sample
array's integer dtype (width `w`, e.g. int16 for 16-bit audio) and wraps on
overflow, unlike the `astype(np.float64)` used for the RMS one line above —
then `noise_power = signal_power / 100` and
`snr = 10*log10(signal_power/noise_power) if noise_power > 0 else 0.0`.  When
`noise_power > 0` the quotient is exactly `100` and `10·log₁₀ 100 = 20`, so
that branch is the constant `20`; `np.mean` of an empty array is NaN, whose
comparison with `0` is false, giving the `0` branch. -/
def assessSNR (w : ℕ) (samples : List ℤ) : ℚ :=
  let squares := samples.map fun s => wrapSigned w (s * s)
  let signalPower : ℚ :=
    if samples.length = 0 then 0 else (squares.sum : ℚ) / samples.length
  let noisePower := signalPower / 100
  if 0 < noisePower then 20 else 0

/-! ## LLM client
`backend/services/v2_services/gemini_client.py` -/

/-- JSON values, the shape of the maps moved around by the client. -/
inductive JVal where
  | null
  | bool (b : Bool)
  | num (q : ℚ)
  | str (s : String)
  | arr (xs : List JVal)
  | obj (kvs : List (String × JVal))
deriving Repr, Inhabited

/-- One item yielded by `json_stream`:
`{"data": …, "chunk_index": i, "done": bool}`. -/
structure StreamChunk where
  data : JVal
  chunk_index : ℕ
  done : Bool
deriving Repr

/-- Modelled from the spec: `backend.services.json_utils.create_fallback_response`
(the `json_utils` module is absent from `src/`); per spec §4.1 a final failure
"returns a `{error: …}` fallback map". -/
def createFallbackResponse (msg : String) : JVal :=
  .obj [("error", .str msg)]

/-- `GeminiClientV2._generate_with_retries` at outcome level: the retry loop
makes up to `max_retries + 1` attempts (so the list of attempt outcomes is
never empty); the first success is returned and otherwise the exception of the
last attempt is re-raised (`raise last_exc`). -/
def generateWithRetries : List (Except String α) → Except String α
  | [] => .error "last_exc is None"
  | [a] => a
  | a :: rest =>
    match a with
    | .ok v => .ok v
    | .error _ => generateWithRetries rest

/-- Raw SDK response as far as `query_json` inspects it: either already a dict
(`isinstance(raw, dict)`) or an object rendered to text (its `.text`
attribute, or `str(raw)`). -/
inductive RawResponse where
  | dict (d : JVal)
  | text (t : String)

/-- `GeminiClientV2.query_json` (lines 208-253), after model selection.  A
generation failure returns `create_fallback_response(str(e))`; a dict response
is returned directly; otherwise the stripped response text is parsed by
`json.loads` when it starts with a brace or bracket (the external parser is
the oracle `parseJson`, `none` meaning a parse error), falling back to
`{"text": text}`; an empty text gives `{}`. -/
def queryJson (parseJson : String → Option JVal) (gen : Except String RawResponse) : JVal :=
  match gen with
  | .error e => createFallbackResponse e
  | .ok (.dict d) => d
  | .ok (.text t) =>
    let t := t.trim
    if t.isEmpty then .obj []
    else if t.startsWith "\x7b" || t.startsWith "[" then
      match parseJson t with
      | some v => v
      | none => .obj [("text", .str t)]
    else .obj [("text", .str t)]

/-- `GeminiClientV2.json_stream`, simulated-streaming fallback (lines
376-423).  A dict result is split into `num_chunks = min(len(keys), 5)`
consecutive key-slices (`keys[i*chunk_size : …]`; the dict comprehension
`{k: result[k] for k in chunk_keys}` over the unique dict keys reproduces
exactly that slice of the items), yielded as not-done chunks, followed by a
final chunk carrying the whole `result` with `done=True`.  A non-dict result
is yielded as one done chunk.  For an empty dict, `len(keys) // num_chunks`
raises `ZeroDivisionError`, which the enclosing `except` clause converts into
a single `{"error": str(e)}` done chunk. -/
def jsonStreamSim (result : JVal) : List StreamChunk :=
  match result with
  | .obj kvs =>
    let numChunks := min kvs.length 5
    if numChunks = 0 then
      [⟨.obj [("error", .str "integer division or modulo by zero")], 0, true⟩]
    else
      let chunkSize := max 1 (kvs.length / numChunks)
      ((List.range numChunks).map fun i =>
        let startIdx := i * chunkSize
        let endIdx := if i < numChunks - 1 then startIdx + chunkSize else kvs.length
        (⟨.obj ((kvs.drop startIdx).take (endIdx - startIdx)), i, false⟩ : StreamChunk))
      ++ [⟨.obj kvs, numChunks, true⟩]
  | other => [⟨other, 0, true⟩]

/-- `json_stream` without a schema when live streaming is unavailable: the
batch `query_json` result (which is a fallback `{error: …}` map when every
generation attempt failed) fed through the streaming simulation. -/
def jsonStreamFallback (parseJson : String → Option JVal) (gen : Except String RawResponse) :
    List StreamChunk :=
  jsonStreamSim (queryJson parseJson gen)

/-! ## Analysis context
`backend/services/v2_services/analysis_context.py` -/

/-- `AnalysisContext` transcript state (`transcript_partial`,
`transcript_final`; the other fields do not enter the claims).  Field names
are spelled `transcriptInterim`/`transcriptFinal` here. -/
structure AnalysisContext where
  transcriptInterim : String := ""
  transcriptFinal : Option String := none
deriving Repr, DecidableEq

/-- `AnalysisContext.update_transcript_partial`: unconditionally overwrites
`transcript_partial` with the new value. -/
def updateTranscriptPartial (ctx : AnalysisContext) (newText : String) : AnalysisContext :=
  { ctx with transcriptInterim := newText }

/-- `AnalysisContext.finalize_transcript`: unconditionally sets both
`transcript_final` and `transcript_partial` to `final_text`. -/
def finalizeTranscript (_ctx : AnalysisContext) (finalText : String) : AnalysisContext :=
  { transcriptFinal := some finalText, transcriptInterim := finalText }

/-- One transcript operation performed on an `AnalysisContext` during a
request. -/
inductive CtxOp where
  | update (s : String)
  | finalize (s : String)
deriving Repr, DecidableEq

/-- Apply one context operation. -/
def applyOp (ctx : AnalysisContext) : CtxOp → AnalysisContext
  | .update s => updateTranscriptPartial ctx s
  | .finalize s => finalizeTranscript ctx s

/-- Apply a sequence of context operations, left to right. -/
def applyOps (ctx : AnalysisContext) : List CtxOp → AnalysisContext
  | [] => ctx
  | op :: rest => applyOps (applyOp ctx op) rest

/-! ## Runner
`backend/services/v2_services/runner.py::V2AnalysisRunner.stream_run` -/

/-- The `payload` dict of a transcription-stream event, as far as
`stream_run` inspects it: its `'transcript'` entry (`none` = key absent) and
its Python truthiness (`False` for an empty dict). -/
structure TrPayload where
  transcript : Option String
  truthy : Bool
deriving Repr

/-- One event read by the runner's transcription loop from
`transcription_service.stream_analyze`: `serviceName` is
`ev.get('service_name')`, `interimFlag` the truthiness of
`ev.get('interim')`, `interimText` is `ev.get('partial_transcript')`
(`none` = absent or `None`), `payload` is `ev.get('payload')`. -/
structure TrEvent where
  serviceName : Option String
  interimFlag : Bool
  interimText : Option String
  payload : Option TrPayload
deriving Repr

/-- Python truthiness of `ev.get('payload')`. -/
def payloadTruthy : Option TrPayload → Bool
  | some p => p.truthy
  | none => false

/-- Python truthiness of `payload.get('transcript')`. -/
def transcriptTruthy : Option String → Bool
  | some s => !s.isEmpty
  | none => false

/-- Kind of an item the runner's event queue delivers from
`_service_stream_to_queue` (`"partial"`, `"final"` or `"error"`). -/
inductive QKind where
  | interim
  | final
  | error
deriving Repr, DecidableEq

/-- One item of the runner's `event_queue`. -/
structure QItem where
  kind : QKind
  service : String
deriving Repr, DecidableEq

/-- Payload of an `analysis.update` event emitted by `stream_run`. -/
inductive UpdatePayload where
  | interimTranscript (s : String)
  | finalTranscript (transcript : Option String) (autoGenerated : Bool)
  | forwarded
  | queued (kind : QKind)
deriving Repr, DecidableEq

/-- Payload of an `analysis.done` event emitted by `stream_run`. -/
inductive DonePayload where
  | transcriptDone (transcript : Option String) (autoGenerated : Bool)
  | aggregate (transcript : Option String) (services : List (String × QKind))
      (errors : List String)
deriving Repr, DecidableEq

/-- One event of the `stream_run` output stream. -/
inductive RunnerEvent where
  | update (service : String) (payload : UpdatePayload)
  | progress (service : String) (completed : ℕ) (total : ℕ)
  | done (payload : DonePayload)
deriving Repr, DecidableEq

/-- Whether an event is an `analysis.done` event. -/
def isDoneEvent : RunnerEvent → Bool
  | .done _ => true
  | _ => false

/-- Result of the transcription streaming loop of `stream_run` (lines
139-183): the events yielded, the resulting `transcript_text`/`generated`
pair, and the arguments of the `update_transcript_partial` and
`finalize_transcript` calls it makes on the analysis context. -/
structure TrLoopResult where
  events : List RunnerEvent
  transcriptText : Option String
  generated : Bool
  updateArgs : List String
  finalizeArgs : List (Option String)
deriving Repr

/-- The `async for ev in self.transcription_service.stream_analyze(...)` loop
of `stream_run`: interim events with a `partial_transcript` update the context
and are forwarded as transcript updates, other truthy interim payloads are
forwarded under their service name, and the first non-interim event finalizes
the transcript (when it is a transcription payload) and breaks the loop. -/
def trLoop (transcriptText : Option String) : List TrEvent → TrLoopResult
  | [] => ⟨[], transcriptText, false, [], []⟩
  | ev :: rest =>
    let svc := ev.serviceName.getD "transcription"
    if ev.interimFlag then
      match ev.interimText with
      | some pt =>
        let r := trLoop transcriptText rest
        ⟨.update "transcript" (.interimTranscript pt) :: r.events, r.transcriptText,
          r.generated, pt :: r.updateArgs, r.finalizeArgs⟩
      | none =>
        if payloadTruthy ev.payload then
          let r := trLoop transcriptText rest
          ⟨.update svc .forwarded :: r.events, r.transcriptText, r.generated,
            r.updateArgs, r.finalizeArgs⟩
        else
          trLoop transcriptText rest
    else
      let payload := ev.payload
      if svc = "transcription" || transcriptTruthy (payload.bind (·.transcript)) then
        let newText := (payload.bind (·.transcript)).orElse fun _ => transcriptText
        ⟨[.update "transcript" (.finalTranscript newText true)], newText, true, [],
          [newText]⟩
      else
        ⟨[.update svc .forwarded], transcriptText, false, [], []⟩

/-- Input of one `stream_run` call, with the externally-supplied parts
(transcription event stream, service event-queue arrival order, the
`_ensure_transcript` result for the non-streaming path) given as oracles. -/
structure StreamRunInput where
  transcript : Option String
  audioPresent : Bool
  hasStreamingTranscription : Bool
  trEvents : List TrEvent
  ensureResult : String × Bool
  qItems : List QItem
  numTasks : ℕ
deriving Repr

/-- The `while pending or not event_queue.empty()` multiplexing loop of
`stream_run` (lines 257-312), applied to the queue items in arrival order: a
`"partial"` item yields one `analysis.update`; a `"final"` or `"error"` item
yields an `analysis.update` followed by an `analysis.progress` with the
incremented completion counter. -/
def queueLoop (numTasks : ℕ) (completed : ℕ) : List QItem → List RunnerEvent
  | [] => []
  | it :: rest =>
    match it.kind with
    | .interim => .update it.service (.queued .interim) :: queueLoop numTasks completed rest
    | k =>
      .update it.service (.queued k) ::
        .progress it.service (completed + 1) numTasks :: queueLoop numTasks (completed + 1) rest

/-- `aggregate["services"]` after the multiplexing loop: one entry per
`"final"`/`"error"` queue item (later duplicates overwrite in the source's
dict; kept as the item list here). -/
def aggregateServices (qItems : List QItem) : List (String × QKind) :=
  (qItems.filter fun it => it.kind ≠ .interim).map fun it => (it.service, it.kind)

/-- `aggregate["errors"]` after the multiplexing loop: the services of the
`"error"` queue items. -/
def aggregateErrors (qItems : List QItem) : List String :=
  (qItems.filter fun it => it.kind = .error).map (·.service)

/-- `V2AnalysisRunner.stream_run` (lines 117-317) as the list of events it
yields: the transcription phase (streaming loop when a streaming transcription
service and audio are present, otherwise `_ensure_transcript`), then an
`analysis.done` event carrying only the transcript (lines 194-200), then the
multiplexed service phase, then the final `analysis.done` with the aggregate
(lines 314-317). -/
def streamRun (inp : StreamRunInput) : List RunnerEvent :=
  let phaseB :=
    if inp.hasStreamingTranscription && inp.audioPresent then
      trLoop inp.transcript inp.trEvents
    else
      ⟨[], some inp.ensureResult.1, inp.ensureResult.2, [], []⟩
  phaseB.events
    ++ [.done (.transcriptDone phaseB.transcriptText phaseB.generated)]
    ++ queueLoop inp.numTasks 0 inp.qItems
    ++ [.done (.aggregate phaseB.transcriptText (aggregateServices inp.qItems)
          (aggregateErrors inp.qItems))]

/-! ## Specification-side characterisations and small accessors -/

/-- The primary-indicator selection as the metric loop actually performs it,
written independently of the loop: the metrics (in input iteration order)
whose z-score exists and satisfies `|z| > 1.5` and `direction·z > 0`,
formatted, truncated to the first five. -/
def specPrimaryIndicators (metrics : List (String × ℚ)) (baseline : Option BaselineProfile) :
    List String :=
  (metrics.filterMap fun m =>
    match calculateZScore m.2 (baseline.bind fun b => b.metricBaseline m.1) with
    | some z =>
      if 3/2 < |z| ∧ 0 < (metricDirection m.1 : ℚ) * z then some (formatIndicator m.1 z)
      else none
    | none => none).take 5

/-- Keys of a chunk's `data` map (empty for non-dict data). -/
def chunkKeys (c : StreamChunk) : List String :=
  match c.data with
  | .obj kvs => kvs.map Prod.fst
  | _ => []

/-- Entries of a chunk's `data` map (empty for non-dict data). -/
def chunkEntries (c : StreamChunk) : List (String × JVal) :=
  match c.data with
  | .obj kvs => kvs
  | _ => []

/-- Dict lookup on a JSON value (`none` for non-dict values or missing key). -/
def jlookup (v : JVal) (k : String) : Option JVal :=
  match v with
  | .obj kvs => kvs.lookup k
  | _ => none

/-- Whether an `Except` value is a success. -/
def exceptIsOk : Except ε α → Bool
  | .ok _ => true
  | .error _ => false

/-- The text-only end-to-end scenario transcript of spec §8. -/
def textOnlyTranscript : String :=
  "I think maybe we should, um, possibly reconsider this decision later."

/-! ## Theorems -/

/-- Claim C1 (code bug): `stream_run` was claimed to emit exactly one
`analysis.done` event, as the last event of the stream.  Evaluating the
embedded `streamRun` on the scenario of
`test_v2_runner.py::test_stream_run_emits_incremental_events`
(`transcript="stream me"`, `audio=None`, two services that finish) shows the
code emits two `analysis.done` events, and the *first* event of the stream is
already one of them (the transcript-only done of lines 194-200, which that
test requires to be an `analysis.update` for service `"transcript"`); the
aggregate done is last. -/
theorem claimC1_streamRun_emits_done_twice :
    ((streamRun ⟨some "stream me", false, true, [], ("stream me", false),
        [⟨.final, "alpha"⟩, ⟨.final, "beta"⟩], 2⟩).countP isDoneEvent = 2) ∧
    (streamRun ⟨some "stream me", false, true, [], ("stream me", false),
        [⟨.final, "alpha"⟩, ⟨.final, "beta"⟩], 2⟩).head? =
      some (.done (.transcriptDone (some "stream me") false)) ∧
    (streamRun ⟨some "stream me", false, true, [], ("stream me", false),
        [⟨.final, "alpha"⟩, ⟨.final, "beta"⟩], 2⟩).getLast? =
      some (.done (.aggregate (some "stream me")
        [("alpha", .final), ("beta", .final)] [])) := by
  refine ⟨by decide, by decide, by decide⟩

/-- Claim C4, counterexample: on the text-only transcript the numerical
linguistic metric computation yields `word_count = 11`, not the claimed `12`
(the `\b\w+\b` tokenizer finds eleven word tokens). -/
theorem claimC4_counterexample :
    (calcNumericalLinguisticMetrics textOnlyTranscript none).word_count = 11 ∧
    (calcNumericalLinguisticMetrics textOnlyTranscript none).word_count ≠ 12 := by
  refine ⟨by decide, by decide⟩

/-- Claim C4 (amended): on the text-only transcript
`_calculate_numerical_linguistic_metrics` computes `word_count = 11`,
`hesitation_marker_count = 1` (the single "um") and `qualifier_count = 3`
("maybe", "possibly" and the phrase "i think"), which satisfies the `≥ 2`
part of the claim. -/
theorem claimC4_text_only_metrics :
    (calcNumericalLinguisticMetrics textOnlyTranscript none).word_count = 11 ∧
    (calcNumericalLinguisticMetrics textOnlyTranscript none).hesitation_marker_count = 1 ∧
    (calcNumericalLinguisticMetrics textOnlyTranscript none).qualifier_count = 3 ∧
    2 ≤ (calcNumericalLinguisticMetrics textOnlyTranscript none).qualifier_count := by
  refine ⟨by decide, by decide, by decide, by decide⟩

/-- Claim C10 (code bug): the SNR assessment was claimed to return exactly
20.0 dB for every input with nonzero signal power.  Because `samples**2` is
computed in the integer sample dtype (int16 for 16-bit audio) without the
`astype(np.float64)` used for the RMS one line above, `182² = 33124` wraps to
`-32412`; the mean square of the nonzero sample list `[182]` is negative, the
`noise_power > 0` guard fails, and the code returns `0.0` instead of `20.0`.
A sample value without overflow (`181`) still gives `20`. -/
theorem claimC10_snr_int16_overflow :
    wrapSigned 16 (182 * 182) = -32412 ∧
    assessSNR 16 [182] = 0 ∧
    assessSNR 16 [181] = 20 ∧
    assessSNR 16 [182] ≠ 20 := by
  refine ⟨by decide, ?_, ?_, ?_⟩ <;> with_unfolding_all decide

/-- Claim C5, counterexample: on the 5-key dict `{a:1,…,e:5}` the simulated
stream's partial chunks are the disjoint singleton slices
`{a}, {b}, {c}, {d}, {e}` — they do not grow monotonically (chunk 1's data is
not a superset of chunk 0's data); only the final `done` chunk holds the whole
map. -/
theorem claimC5_counterexample :
    ((jsonStreamSim (.obj [("a", .num 1), ("b", .num 2), ("c", .num 3), ("d", .num 4),
        ("e", .num 5)])).map chunkKeys =
      [["a"], ["b"], ["c"], ["d"], ["e"], ["a", "b", "c", "d", "e"]]) ∧
    ((jsonStreamSim (.obj [("a", .num 1), ("b", .num 2), ("c", .num 3), ("d", .num 4),
        ("e", .num 5)])).map StreamChunk.done = [false, false, false, false, false, true]) ∧
    ¬ (["a"] : List String) ⊆ ["b"] := by
  refine ⟨?_, ?_, ?_⟩ <;> with_unfolding_all decide

/-- Claim C6, counterexample: with the single metric `pitch_jitter = 1`
against baseline `mean 0, std 1` the z-score is `+1.00`, the direction is
`+1` (so `direction·z > 0`) and its contribution `0.85` is the top
contribution, yet `primary_indicators` is empty — the code only admits
indicators with `|z| > 1.5`, and it keeps insertion order rather than ranking
by `|contribution|`. -/
theorem claimC6_counterexample :
    (calculateCredibilityScore (fun _ => 0) [("pitch_jitter", 1)]
      (some ⟨fun n => if n = "pitch_jitter" then some ⟨0, 1, none⟩ else none,
        "good"⟩)).primary_indicators = [] ∧
    (calculateCredibilityScore (fun _ => 0) [("pitch_jitter", 1)]
      (some ⟨fun n => if n = "pitch_jitter" then some ⟨0, 1, none⟩ else none,
        "good"⟩)).metric_breakdown = [⟨"pitch_jitter", 1, 1, 17/20, 17/20⟩] ∧
    ∀ c ∈ (calculateCredibilityScore (fun _ => 0) [("pitch_jitter", 1)]
      (some ⟨fun n => if n = "pitch_jitter" then some ⟨0, 1, none⟩ else none,
        "good"⟩)).metric_breakdown, 0 < (c.direction : ℚ) * c.z_score := by
  refine ⟨?_, ?_, ?_⟩ <;> with_unfolding_all decide

/-- Claim C7, counterexample: for `text="bad"`,
`acoustic_emotions=["joy"]`, `linguistic_sentiment="positive"` the two
provided valences are both `"positive"` (available and not conflicting), yet
the returned congruence score is `0.6`, not `0.8` — the second comparison
block against the locally derived text sentiment averages the score with
`0.4` — and `0.6` is outside the claimed value set `{0.8, 0.3, 0.7}`. -/
theorem claimC7_counterexample :
    getEmotionValence ["joy"] = "positive" ∧
    sentimentToValence "positive" = "positive" ∧
    (calculateProsodicCongruence "bad" (some ["joy"]) (some "positive")).congruence_score
      = 3/5 ∧
    ((3 : ℚ)/5 ≠ 8/10 ∧ (3 : ℚ)/5 ≠ 3/10 ∧ (3 : ℚ)/5 ≠ 7/10) := by
  refine ⟨?_, ?_, ?_, ?_⟩ <;> with_unfolding_all decide

/-- Claim C9, counterexample: the `AnalysisContext` operations overwrite
unconditionally — `update_transcript_partial("ab")` followed by
`update_transcript_partial("a")` shrinks `transcript_partial`, and a second
`finalize_transcript` replaces an already-set `transcript_final` with a
different value. -/
theorem claimC9_counterexample :
    (applyOps ⟨"", none⟩ [.update "ab"]).transcriptInterim = "ab" ∧
    (applyOps ⟨"", none⟩ [.update "ab", .update "a"]).transcriptInterim = "a" ∧
    ("a" : String).length < ("ab" : String).length ∧
    (applyOps ⟨"", none⟩ [.finalize "x"]).transcriptFinal = some "x" ∧
    (applyOps ⟨"", none⟩ [.finalize "x", .finalize "y"]).transcriptFinal = some "y" ∧
    (some "y" : Option String) ≠ some "x" := by
  refine ⟨?_, ?_, ?_, ?_, ?_, ?_⟩ <;> decide

/-! ### Field lemmas for the credibility record -/

theorem calcCred_score (f : ℚ → ℚ) (m : List (String × ℚ)) (b : Option BaselineProfile) :
    (calculateCredibilityScore f m b).credibility_score =
      round1 (credScoreValue (scoreLoop b m)) := rfl

theorem calcCred_low (f : ℚ → ℚ) (m : List (String × ℚ)) (b : Option BaselineProfile) :
    (calculateCredibilityScore f m b).confidence_interval_low =
      round1 (ciLowValue f (scoreLoop b m)) := rfl

theorem calcCred_high (f : ℚ → ℚ) (m : List (String × ℚ)) (b : Option BaselineProfile) :
    (calculateCredibilityScore f m b).confidence_interval_high =
      round1 (ciHighValue f (scoreLoop b m)) := rfl

theorem calcCred_warnings (f : ℚ → ℚ) (m : List (String × ℚ)) (b : Option BaselineProfile) :
    (calculateCredibilityScore f m b).quality_warnings =
      credScoreWarnings (scoreLoop b m) ++ ciWarnings (scoreLoop b m) := rfl

theorem calcCred_primary (f : ℚ → ℚ) (m : List (String × ℚ)) (b : Option BaselineProfile) :
    (calculateCredibilityScore f m b).primary_indicators =
      (scoreLoop b m).primary_indicators.take 5 := rfl

/-- `round1` is the floor of `q·10 + 1/2` over ten, hence monotone. -/
theorem round1_mono {q r : ℚ} (h : q ≤ r) : round1 q ≤ round1 r := by
  unfold round1
  have hr : round (q * 10) ≤ round (r * 10) := by
    rw [round_eq, round_eq]
    exact Int.floor_mono (by linarith)
  have hc : ((round (q * 10) : ℤ) : ℚ) ≤ ((round (r * 10) : ℤ) : ℚ) := by
    exact_mod_cast hr
  linarith

/-- `round1` fixes the integer 50 (and every integer). -/
theorem round1_intCast (n : ℤ) : round1 (n : ℚ) = n := by
  unfold round1
  rw [show ((n : ℚ) * 10) = ((n * 10 : ℤ) : ℚ) by push_cast; ring, round_intCast]
  push_cast
  ring

/-- Claim C2 (confirmed): whenever at least one metric has a usable baseline
(`total_weight > 0`), the credibility score is
`clamp(50 − 25·(weighted_sum / total_weight), 0, 100)` (emitted rounded to
one decimal); with no usable baseline (`total_weight = 0`) the score is `50`
and the "Insufficient metrics" quality warning is recorded. -/
theorem claimC2_credibility_score_formula (sqrtFn : ℚ → ℚ) (metrics : List (String × ℚ))
    (baseline : Option BaselineProfile) :
    (0 < (scoreLoop baseline metrics).total_weight →
      (calculateCredibilityScore sqrtFn metrics baseline).credibility_score =
        round1 (max 0 (min 100 (50 - 25 * ((scoreLoop baseline metrics).weighted_sum /
          (scoreLoop baseline metrics).total_weight))))) ∧
    ((scoreLoop baseline metrics).total_weight = 0 →
      (calculateCredibilityScore sqrtFn metrics baseline).credibility_score = 50 ∧
      "Insufficient metrics for credibility assessment" ∈
        (calculateCredibilityScore sqrtFn metrics baseline).quality_warnings) := by
  constructor
  · intro h
    rw [calcCred_score, credScoreValue, if_pos h]
    congr 2
    ring_nf
  · intro h
    refine ⟨?_, ?_⟩
    · rw [calcCred_score, credScoreValue, if_neg (by rw [h]; exact lt_irrefl 0)]
      exact_mod_cast round1_intCast 50
    · rw [calcCred_warnings, credScoreWarnings, if_neg (by rw [h]; exact lt_irrefl 0)]
      simp

/-- Claim C2, witness: a concrete run through each branch — the singleton
metric map `pitch_jitter = 1` with a baseline has positive total weight and
produces the formula value `25.0`; the empty metric map has zero total weight,
score `50` and the warning recorded. -/
theorem claimC2_credibility_score_formula_witness :
    (0 < (scoreLoop (some ⟨fun n => if n = "pitch_jitter" then some ⟨0, 1, none⟩ else none,
        "good"⟩) [("pitch_jitter", 1)]).total_weight ∧
      (calculateCredibilityScore (fun _ => 0) [("pitch_jitter", 1)]
        (some ⟨fun n => if n = "pitch_jitter" then some ⟨0, 1, none⟩ else none,
          "good"⟩)).credibility_score =
        round1 (max 0 (min 100 (50 - 25 *
          ((scoreLoop (some ⟨fun n => if n = "pitch_jitter" then some ⟨0, 1, none⟩ else none,
            "good"⟩) [("pitch_jitter", 1)]).weighted_sum /
           (scoreLoop (some ⟨fun n => if n = "pitch_jitter" then some ⟨0, 1, none⟩ else none,
            "good"⟩) [("pitch_jitter", 1)]).total_weight))))) ∧
    ((scoreLoop (none : Option BaselineProfile) []).total_weight = 0 ∧
      (calculateCredibilityScore (fun _ => 0) [] none).credibility_score = 50 ∧
      "Insufficient metrics for credibility assessment" ∈
        (calculateCredibilityScore (fun _ => 0) [] none).quality_warnings) := by
  constructor
  · exact ⟨by with_unfolding_all decide,
      (claimC2_credibility_score_formula (fun _ => 0) [("pitch_jitter", 1)]
        (some ⟨fun n => if n = "pitch_jitter" then some ⟨0, 1, none⟩ else none, "good"⟩)).1
        (by with_unfolding_all decide)⟩
  · exact ⟨by with_unfolding_all decide,
      (claimC2_credibility_score_formula (fun _ => 0) [] none).2
        (by with_unfolding_all decide)⟩

theorem round1_zero : round1 (0 : ℚ) = 0 := by
  exact_mod_cast round1_intCast 0

theorem round1_hundred : round1 (100 : ℚ) = 100 := by
  exact_mod_cast round1_intCast 100

theorem credScoreValue_nonneg (st : ScoreLoopState) : 0 ≤ credScoreValue st := by
  unfold credScoreValue
  split
  · exact le_max_left _ _
  · norm_num

theorem credScoreValue_le_100 (st : ScoreLoopState) : credScoreValue st ≤ 100 := by
  unfold credScoreValue
  split
  · exact max_le (by norm_num) (min_le_left _ _)
  · norm_num

/-- `scipy.stats.sem` of at least three values is nonnegative, for any model
of the square root that is nonnegative on nonnegative arguments. -/
theorem semOf_nonneg (f : ℚ → ℚ) (hf : ∀ q, 0 ≤ q → 0 ≤ f q) (zs : List ℚ)
    (h3 : 3 ≤ zs.length) : 0 ≤ semOf f zs := by
  unfold semOf
  apply hf
  have hn : (0 : ℚ) ≤ (zs.length : ℚ) := by positivity
  have hsum : (0 : ℚ) ≤ ((zs.map fun z => (z - zs.sum / zs.length) ^ 2).sum) := by
    apply List.sum_nonneg
    intro x hx
    rcases List.mem_map.1 hx with ⟨z, _, rfl⟩
    positivity
  have hn1 : (0 : ℚ) ≤ (zs.length : ℚ) - 1 := by
    have : (3 : ℚ) ≤ (zs.length : ℚ) := by exact_mod_cast h3
    linarith
  exact div_nonneg (div_nonneg hsum hn1) hn

theorem ciMarginValue_nonneg (f : ℚ → ℚ) (hf : ∀ q, 0 ≤ q → 0 ≤ f q)
    (st : ScoreLoopState) : 0 ≤ ciMarginValue f st := by
  unfold ciMarginValue
  split
  · have h := semOf_nonneg f hf st.z_scores (by assumption)
    have : (0:ℚ) ≤ semOf f st.z_scores * (196/100) := by
      apply mul_nonneg h
      norm_num
    apply mul_nonneg this
    norm_num
  · norm_num

/-- Claim C3 (confirmed): every `CredibilityScore` the scoring algorithm
produces — for any metrics map, any (possibly absent) baseline profile, and
any model of the floating-point square root that is nonnegative on
nonnegative inputs (as the real `sqrt` is) — has
`credibility_score ∈ [0, 100]` and
`confidence_interval_low ≤ credibility_score ≤ confidence_interval_high`. -/
theorem claimC3_credibility_score_bounds (sqrtFn : ℚ → ℚ)
    (hs : ∀ q, 0 ≤ q → 0 ≤ sqrtFn q) (metrics : List (String × ℚ))
    (baseline : Option BaselineProfile) :
    0 ≤ (calculateCredibilityScore sqrtFn metrics baseline).credibility_score ∧
    (calculateCredibilityScore sqrtFn metrics baseline).credibility_score ≤ 100 ∧
    (calculateCredibilityScore sqrtFn metrics baseline).confidence_interval_low ≤
      (calculateCredibilityScore sqrtFn metrics baseline).credibility_score ∧
    (calculateCredibilityScore sqrtFn metrics baseline).credibility_score ≤
      (calculateCredibilityScore sqrtFn metrics baseline).confidence_interval_high := by
  have h0 := credScoreValue_nonneg (scoreLoop baseline metrics)
  have h100 := credScoreValue_le_100 (scoreLoop baseline metrics)
  have hm := ciMarginValue_nonneg sqrtFn hs (scoreLoop baseline metrics)
  have hlow : ciLowValue sqrtFn (scoreLoop baseline metrics) ≤
      credScoreValue (scoreLoop baseline metrics) := by
    unfold ciLowValue
    exact max_le h0 (by linarith)
  have hhigh : credScoreValue (scoreLoop baseline metrics) ≤
      ciHighValue sqrtFn (scoreLoop baseline metrics) := by
    unfold ciHighValue
    exact le_min h100 (by linarith)
  rw [calcCred_score, calcCred_low, calcCred_high]
  refine ⟨?_, ?_, round1_mono hlow, round1_mono hhigh⟩
  · have := round1_mono h0
    rwa [round1_zero] at this
  · have := round1_mono h100
    rwa [round1_hundred] at this

/-- Claim C3, witness: the bound theorem applied at the zero square-root
model (nonnegative on nonnegative inputs) and the concrete single-metric
input of the other credibility witnesses. -/
theorem claimC3_credibility_score_bounds_witness :
    (∀ q : ℚ, 0 ≤ q → 0 ≤ (fun _ : ℚ => (0 : ℚ)) q) ∧
    (0 ≤ (calculateCredibilityScore (fun _ => 0) [("pitch_jitter", 1)]
        (some ⟨fun n => if n = "pitch_jitter" then some ⟨0, 1, none⟩ else none,
          "good"⟩)).credibility_score ∧
      (calculateCredibilityScore (fun _ => 0) [("pitch_jitter", 1)]
        (some ⟨fun n => if n = "pitch_jitter" then some ⟨0, 1, none⟩ else none,
          "good"⟩)).credibility_score ≤ 100 ∧
      (calculateCredibilityScore (fun _ => 0) [("pitch_jitter", 1)]
        (some ⟨fun n => if n = "pitch_jitter" then some ⟨0, 1, none⟩ else none,
          "good"⟩)).confidence_interval_low ≤
        (calculateCredibilityScore (fun _ => 0) [("pitch_jitter", 1)]
          (some ⟨fun n => if n = "pitch_jitter" then some ⟨0, 1, none⟩ else none,
            "good"⟩)).credibility_score ∧
      (calculateCredibilityScore (fun _ => 0) [("pitch_jitter", 1)]
        (some ⟨fun n => if n = "pitch_jitter" then some ⟨0, 1, none⟩ else none,
          "good"⟩)).credibility_score ≤
        (calculateCredibilityScore (fun _ => 0) [("pitch_jitter", 1)]
          (some ⟨fun n => if n = "pitch_jitter" then some ⟨0, 1, none⟩ else none,
            "good"⟩)).confidence_interval_high) :=
  ⟨fun _ _ => le_refl 0,
   claimC3_credibility_score_bounds (fun _ => 0) (fun _ _ => le_refl 0)
     [("pitch_jitter", 1)]
     (some ⟨fun n => if n = "pitch_jitter" then some ⟨0, 1, none⟩ else none, "good"⟩)⟩

/-- The primary-indicator accumulator of the metric loop, characterised as a
`filterMap` over the metrics in input order. -/
theorem scoreLoop_primary_eq (baseline : Option BaselineProfile) (metrics : List (String × ℚ)) :
    (scoreLoop baseline metrics).primary_indicators =
      metrics.filterMap fun m =>
        match calculateZScore m.2 (baseline.bind fun b => b.metricBaseline m.1) with
        | some z =>
          if 3/2 < |z| ∧ 0 < (metricDirection m.1 : ℚ) * z then
            some (formatIndicator m.1 z)
          else none
        | none => none := by
  induction metrics with
  | nil => rfl
  | cons m rest ih =>
    obtain ⟨name, value⟩ := m
    simp only [scoreLoop, List.filterMap_cons]
    cases h : calculateZScore value (baseline.bind fun b => b.metricBaseline name) with
    | none => simpa using ih
    | some z =>
      simp only []
      split
      · simp [ih]
      · simpa using ih

/-- Claim C6 (amended): `primary_indicators` holds, in metric iteration order
(not ranked by `|contribution|`), the metrics whose z-score satisfies
`|z| > 1.5` and `direction·z > 0`, formatted
`"<metric>: ±z.zzσ (suspicious)"`, truncated to the first five. -/
theorem claimC6_primary_indicators (sqrtFn : ℚ → ℚ) (metrics : List (String × ℚ))
    (baseline : Option BaselineProfile) :
    (calculateCredibilityScore sqrtFn metrics baseline).primary_indicators =
      specPrimaryIndicators metrics baseline := by
  rw [calcCred_primary, specPrimaryIndicators, scoreLoop_primary_eq]

/-- Claim C7 (amended): the prosodic-congruence score always lies in
`{0.8, 0.3, 0.7, 0.4, 0.35, 0.6}` — besides the claimed `0.8` (match),
`0.3` (mismatch) and `0.7` (not enough data), the second comparison against
the locally derived text sentiment can produce `0.4` (acoustic vs text
mismatch with no first comparison), `0.35 = (0.3 + 0.4)/2` and
`0.6 = (0.8 + 0.4)/2` (averages with a first-comparison score). -/
theorem claimC7_congruence_score_values (text : String) (ae : Option (List String))
    (ls : Option String) :
    (calculateProsodicCongruence text ae ls).congruence_score ∈
      ([8/10, 3/10, 7/10, 4/10, 7/20, 3/5] : List ℚ) := by
  simp only [calculateProsodicCongruence]
  split_ifs <;>
    simp_all [apply_ite Prod.fst, apply_ite Prod.snd, Option.getD] <;>
    norm_num

/-- Concatenating `m` consecutive `cs`-sized slices recovers the first
`m·cs` elements. -/
theorem join_take_slices {α : Type} (kvs : List α) (cs : ℕ) (m : ℕ) :
    ((List.range m).map fun i => (kvs.drop (i * cs)).take cs).flatten = kvs.take (m * cs) := by
  induction m with
  | zero => simp
  | succ m ih =>
    rw [List.range_succ, List.map_append, List.flatten_append]
    simp only [List.map_cons, List.map_nil, List.flatten_cons, List.flatten_nil,
      List.append_nil, ih]
    rw [Nat.succ_mul, List.take_add]

/-- The `num_chunks` slices of the simulation partition the whole list: the
first `num_chunks - 1` are `chunk_size`-sized and the last runs to the end. -/
theorem flatten_slices_eq {α : Type} (kvs : List α) (cs : ℕ) (n : ℕ) (hn : n ≠ 0) :
    ((List.range n).map fun i =>
      (kvs.drop (i * cs)).take ((if i < n - 1 then i * cs + cs else kvs.length) - i * cs)).flatten
      = kvs := by
  obtain ⟨m, rfl⟩ : ∃ m, n = m + 1 :=
    ⟨n - 1, (Nat.succ_pred_eq_of_pos (Nat.pos_of_ne_zero hn)).symm⟩
  rw [List.range_succ, List.map_append, List.flatten_append]
  have h1 : ((List.range m).map fun i =>
      (kvs.drop (i * cs)).take ((if i < m + 1 - 1 then i * cs + cs else kvs.length) - i * cs))
      = (List.range m).map fun i => (kvs.drop (i * cs)).take cs := by
    apply List.map_congr_left
    intro i hi
    have him : i < m := List.mem_range.1 hi
    rw [if_pos (by omega)]
    congr 1
    omega
  rw [h1, join_take_slices]
  simp only [List.map_cons, List.map_nil, List.flatten_cons, List.flatten_nil, List.append_nil]
  rw [if_neg (by omega)]
  have h2 : (kvs.drop (m * cs)).take (kvs.length - m * cs) = kvs.drop (m * cs) := by
    apply List.take_of_length_le
    rw [List.length_drop]
  simp only [Nat.add_sub_cancel, h2]
  exact List.take_append_drop _ _

/-- A contiguous take-of-drop slice is a contiguous sub-run of the list. -/
theorem take_drop_slice_sub {α : Type} (l : List α) (s t : ℕ) :
    (l.drop s).take t <:+: l :=
  ⟨l.take s, (l.drop s).drop t, by
    rw [List.append_assoc, List.take_append_drop, List.take_append_drop]⟩

/-- Claim C5 (amended): on a non-empty dict result the simulated stream emits
`min(len(keys), 5)` partial chunks (`done=false`) that are *consecutive
disjoint key-slices* of the result — each one a contiguous sub-run of the
result's entries in preserved key order, and together partitioning the whole
map — followed by a terminal chunk with `done=true` carrying the entire
result.  The partial chunks' data maps do not grow monotonically. -/
theorem claimC5_simulated_stream_structure (kvs : List (String × JVal)) (h : kvs ≠ []) :
    (jsonStreamSim (.obj kvs)).length = min kvs.length 5 + 1 ∧
    (jsonStreamSim (.obj kvs)).getLast? =
      some ⟨.obj kvs, min kvs.length 5, true⟩ ∧
    (∀ c ∈ (jsonStreamSim (.obj kvs)).dropLast, c.done = false ∧ chunkEntries c <:+: kvs) ∧
    ((jsonStreamSim (.obj kvs)).dropLast.map chunkEntries).flatten = kvs := by
  have hn0 : ¬ (min kvs.length 5 = 0) := by
    simp only [Nat.min_eq_zero_iff]
    push_neg
    exact ⟨(List.length_pos.2 h).ne', by norm_num⟩
  simp only [jsonStreamSim]
  rw [if_neg hn0]
  refine ⟨by simp, List.getLast?_concat .., ?_, ?_⟩
  · rw [List.dropLast_concat]
    intro c hc
    rcases List.mem_map.1 hc with ⟨i, _, rfl⟩
    refine ⟨rfl, ?_⟩
    exact take_drop_slice_sub kvs _ _
  · rw [List.dropLast_concat, List.map_map]
    have hcomp : (chunkEntries ∘ fun i =>
        (⟨.obj ((kvs.drop (i * max 1 (kvs.length / min kvs.length 5))).take
            ((if i < min kvs.length 5 - 1 then
                i * max 1 (kvs.length / min kvs.length 5) +
                  max 1 (kvs.length / min kvs.length 5)
              else kvs.length) - i * max 1 (kvs.length / min kvs.length 5))), i,
          false⟩ : StreamChunk))
        = fun i => (kvs.drop (i * max 1 (kvs.length / min kvs.length 5))).take
            ((if i < min kvs.length 5 - 1 then
                i * max 1 (kvs.length / min kvs.length 5) +
                  max 1 (kvs.length / min kvs.length 5)
              else kvs.length) - i * max 1 (kvs.length / min kvs.length 5)) := rfl
    rw [hcomp]
    exact flatten_slices_eq kvs _ _ hn0

/-- Claim C5, witness: the structure theorem applied to the singleton dict
`{a: 1}`. -/
theorem claimC5_simulated_stream_structure_witness :
    ([("a", JVal.num 1)] ≠ []) ∧
    ((jsonStreamSim (.obj [("a", JVal.num 1)])).length = min 1 5 + 1 ∧
      (jsonStreamSim (.obj [("a", JVal.num 1)])).getLast? =
        some ⟨.obj [("a", JVal.num 1)], min 1 5, true⟩ ∧
      (∀ c ∈ (jsonStreamSim (.obj [("a", JVal.num 1)])).dropLast,
        c.done = false ∧ chunkEntries c <:+: [("a", JVal.num 1)]) ∧
      ((jsonStreamSim (.obj [("a", JVal.num 1)])).dropLast.map chunkEntries).flatten =
        [("a", JVal.num 1)]) := by
  refine ⟨by simp, ?_⟩
  have h := claimC5_simulated_stream_structure [("a", JVal.num 1)] (by simp)
  simpa using h

/-- When every attempt fails, the retry loop re-raises an exception (the last
attempt's). -/
theorem generateWithRetries_all_error {α : Type} (attempts : List (Except String α))
    (hne : attempts ≠ []) (hall : ∀ a ∈ attempts, exceptIsOk a = false) :
    ∃ e, generateWithRetries attempts = .error e := by
  induction attempts with
  | nil => exact absurd rfl hne
  | cons a rest ih =>
    cases rest with
    | nil =>
      cases a with
      | ok v =>
        have := hall (.ok v) (by simp)
        simp [exceptIsOk] at this
      | error e => exact ⟨e, rfl⟩
    | cons b rest2 =>
      cases a with
      | ok v =>
        have := hall (.ok v) (by simp)
        simp [exceptIsOk] at this
      | error e =>
        obtain ⟨e2, he2⟩ := ih (by simp) (fun x hx => hall x (by simp [hx]))
        refine ⟨e2, ?_⟩
        rw [show generateWithRetries (Except.error e :: b :: rest2) =
          generateWithRetries (b :: rest2) from rfl]
        exact he2

/-- Claim C8 (confirmed): when every generation attempt fails, `query_json`
returns the `{error: …}` fallback map instead of raising, and the simulated
`json_stream` over that result ends with a chunk whose data carries the error
entry and whose `done` flag is true — nothing is raised across the streaming
boundary. -/
theorem claimC8_llm_failure_fallback (attempts : List (Except String RawResponse))
    (parse : String → Option JVal) (hne : attempts ≠ [])
    (hall : ∀ a ∈ attempts, exceptIsOk a = false) :
    ∃ e, generateWithRetries attempts = .error e ∧
      queryJson parse (generateWithRetries attempts) = JVal.obj [("error", .str e)] ∧
      jlookup (queryJson parse (generateWithRetries attempts)) "error" = some (.str e) ∧
      (jsonStreamFallback parse (generateWithRetries attempts)).getLast? =
        some ⟨JVal.obj [("error", JVal.str e)], 1, true⟩ := by
  obtain ⟨e, he⟩ := generateWithRetries_all_error attempts hne hall
  refine ⟨e, he, ?_, ?_, ?_⟩
  · rw [he]
    rfl
  · rw [he]
    simp [queryJson, createFallbackResponse, jlookup, List.lookup]
  · rw [he]
    rfl

/-- Claim C8, witness: two failing attempts (`max_retries = 1`), with a parse
oracle that always fails. -/
theorem claimC8_llm_failure_fallback_witness :
    (([Except.error "boom", Except.error "bust"] : List (Except String RawResponse)) ≠ []) ∧
    (∀ a ∈ ([Except.error "boom", Except.error "bust"] :
        List (Except String RawResponse)), exceptIsOk a = false) ∧
    (∃ e, generateWithRetries
        ([Except.error "boom", Except.error "bust"] : List (Except String RawResponse)) =
          .error e ∧
      queryJson (fun _ => none) (generateWithRetries
        ([Except.error "boom", Except.error "bust"] : List (Except String RawResponse))) =
          JVal.obj [("error", .str e)] ∧
      jlookup (queryJson (fun _ => none) (generateWithRetries
        ([Except.error "boom", Except.error "bust"] : List (Except String RawResponse))))
          "error" = some (.str e) ∧
      (jsonStreamFallback (fun _ => none) (generateWithRetries
        ([Except.error "boom", Except.error "bust"] : List (Except String RawResponse)))).getLast?
          = some ⟨JVal.obj [("error", JVal.str e)], 1, true⟩) :=
  ⟨by simp, by decide,
    claimC8_llm_failure_fallback [Except.error "boom", Except.error "bust"]
      (fun _ => none) (by simp) (by decide)⟩

/-- Claim C9 (amended): `AnalysisContext` itself enforces neither claimed
invariant (see the counterexample), but: `update_transcript_partial` never
touches `transcript_final`; once `transcript_final` is set it remains set
(only `finalize_transcript` writes it, always to `some`); and within one
`stream_run` transcription loop `finalize_transcript` is invoked at most once
(the loop breaks right after the first non-interim event), so a final
transcript is never overwritten during a single streaming run. -/
theorem claimC9_transcript_state (ctx : AnalysisContext) :
    (∀ s, (updateTranscriptPartial ctx s).transcriptFinal = ctx.transcriptFinal) ∧
    (∀ ops : List CtxOp, ctx.transcriptFinal.isSome = true →
      ((applyOps ctx ops).transcriptFinal).isSome = true) ∧
    (∀ (t : Option String) (evs : List TrEvent),
      ((trLoop t evs).finalizeArgs).length ≤ 1) := by
  refine ⟨fun s => rfl, ?_, ?_⟩
  · intro ops
    induction ops generalizing ctx with
    | nil => exact fun h => h
    | cons op rest ih =>
      intro h
      apply ih
      cases op with
      | update s => exact h
      | finalize s => rfl
  · intro t evs
    induction evs with
    | nil => simp [trLoop]
    | cons ev rest ih =>
      rw [trLoop]
      split
      · split
        · simpa using ih
        · split
          · simpa using ih
          · exact ih
      · dsimp only
        split
        · simp
        · simp

/-- Claim C9, witness: a context with `transcript_final` already set keeps it
set across a further `update_transcript_partial`. -/
theorem claimC9_transcript_state_witness :
    ((⟨"x", some "x"⟩ : AnalysisContext).transcriptFinal.isSome = true) ∧
    ((applyOps ⟨"x", some "x"⟩ [CtxOp.update "y"]).transcriptFinal.isSome = true) :=
  ⟨by decide,
    (claimC9_transcript_state ⟨"x", some "x"⟩).2.1 [CtxOp.update "y"] (by decide)⟩

end Spec2Proof
